import Mathlib

/-!
Verification of the CRM backend (leads / sales agents / comments) against its
specification.  The JavaScript source (src/index.js) is shallowly embedded:
request bodies are JavaScript-like dynamic values, the Mongo collections are
lists of records threaded explicitly through every operation, and each handler
function becomes a pure Lean function returning the new store together with an
`Except` result (the thrown error message or the JSON value the code returns).
-/

/-- A JavaScript value as it appears in a request body or a stored document.
`oid` is an ObjectId reference (modelled as a natural number), `arr` is an
array of strings (the shape of the `tags` field). -/
inductive JsVal where
  | undefined : JsVal
  | null : JsVal
  | str : String → JsVal
  | num : Int → JsVal
  | arr : List String → JsVal
  | oid : Nat → JsVal
deriving DecidableEq, Repr

/-- JavaScript truthiness: `undefined`, `null`, the empty string and the
number 0 are falsy; every other value — including an empty array — is truthy.
This is the semantics of the `if (!name || !source || ...)` presence checks
in src/index.js. -/
def JsVal.truthy : JsVal → Bool
  | JsVal.undefined => false
  | JsVal.null => false
  | JsVal.str s => !(s == "")
  | JsVal.num n => !(n == 0)
  | JsVal.arr _ => true
  | JsVal.oid _ => true

deriving instance DecidableEq for Except

/-- A stored SalesAgent document (models/salesAgent.model): name and email. -/
structure Agent where
  _id : Nat
  name : JsVal
  email : JsVal
deriving DecidableEq, Repr

/-- A stored Lead document (models/lead.model): the seven fields written by
`createLead` / `updateLeadById`; `salesAgent` holds the raw reference value. -/
structure Lead where
  _id : Nat
  name : JsVal
  source : JsVal
  salesAgent : JsVal
  status : JsVal
  timeToClose : JsVal
  priority : JsVal
  tags : JsVal
deriving DecidableEq, Repr

/-- A stored Comment document (models/comment.model). -/
structure Comment where
  _id : Nat
  lead : Nat
  commentText : JsVal
  author : JsVal
deriving DecidableEq, Repr

/-- Modelled from the spec: the Entity Store (the Mongo database behind the
mongoose models, whose schema files are not in src/).  Per §2 it is a plain
document store with "no enforced foreign-key constraints at the storage
level"; `nextId` models ObjectId generation (fresh ids on save). -/
structure Store where
  leads : List Lead
  agents : List Agent
  comments : List Comment
  nextId : Nat
deriving DecidableEq, Repr

/-- Store sanity: every persisted document has an id below `nextId`, so ids
assigned on save are fresh.  Real ObjectIds are unique; this is the invariant
every store reachable through the API satisfies. -/
def Store.wf (s : Store) : Bool :=
  s.leads.all (fun l => l._id < s.nextId) &&
  s.agents.all (fun a => a._id < s.nextId) &&
  s.comments.all (fun c => c._id < s.nextId)

/-- Models `SalesAgent.findById(v)`: the referenced agent, if `v` is an ObjectId of
an agent in the store (mongoose resolves the reference or yields null). -/
def Store.agentById (s : Store) (v : JsVal) : Option Agent :=
  s.agents.find? (fun a => v == JsVal.oid a._id)

/-- Models `Lead.findById(id)` for a route-parameter id. -/
def Store.leadById (s : Store) (i : Nat) : Option Lead :=
  s.leads.find? (fun l => l._id == i)

/-- Models `SalesAgent.findOne({ email })`. -/
def Store.agentByEmail (s : Store) (v : JsVal) : Option Agent :=
  s.agents.find? (fun a => a.email == v)

/-- A lead as returned with `.populate("salesAgent")`: the reference field is
replaced by the full agent document (or null when it resolves to nothing). -/
structure PopulatedLead where
  _id : Nat
  name : JsVal
  source : JsVal
  salesAgent : Option Agent
  status : JsVal
  timeToClose : JsVal
  priority : JsVal
  tags : JsVal
deriving DecidableEq, Repr

/-- Models `.populate("salesAgent")` on one lead document. -/
def Store.populateLead (s : Store) (l : Lead) : PopulatedLead :=
  { _id := l._id, name := l.name, source := l.source,
    salesAgent := s.agentById l.salesAgent, status := l.status,
    timeToClose := l.timeToClose, priority := l.priority, tags := l.tags }

/-- The destructured request body of `createLead` / `updateLeadById`; a field
absent from the JSON body destructures to `undefined`. -/
structure LeadInput where
  name : JsVal
  source : JsVal
  salesAgent : JsVal
  status : JsVal
  timeToClose : JsVal
  priority : JsVal
  tags : JsVal
deriving DecidableEq, Repr

/-- The presence check of src/index.js lines 27–35 / 132–140:
`!(!name || !source || !salesAgent || !status || !timeToClose || !priority || !tags)`. -/
def LeadInput.allPresent (d : LeadInput) : Bool :=
  d.name.truthy && d.source.truthy && d.salesAgent.truthy && d.status.truthy &&
  d.timeToClose.truthy && d.priority.truthy && d.tags.truthy

/-- Models `createLead` (src/index.js lines 23–57): presence check, then
`SalesAgent.findById`, then `new Lead(...).save()`, then
`Lead.findById(lead._id).populate("salesAgent")`.  A thrown error is the
`Except.error` branch; the store component is the (possibly updated) database. -/
def createLead (s : Store) (data : LeadInput) : Store × Except String (Option PopulatedLead) :=
  if !data.allPresent then
    (s, Except.error "All fields are required")
  else
    match s.agentById data.salesAgent with
    | none => (s, Except.error "Sales agent not found")
    | some _ =>
      let lead : Lead :=
        { _id := s.nextId, name := data.name, source := data.source,
          salesAgent := data.salesAgent, status := data.status,
          timeToClose := data.timeToClose, priority := data.priority,
          tags := data.tags }
      let s2 : Store := { s with leads := s.leads ++ [lead], nextId := s.nextId + 1 }
      (s2, Except.ok ((s2.leadById lead._id).map s2.populateLead))

/-- Models `Lead.findByIdAndUpdate(id, doc, { new: true })`: replace the first
document whose `_id` matches, keeping its `_id`. -/
def replaceLeadById : List Lead → Nat → Lead → List Lead
  | [], _, _ => []
  | l :: ls, i, nl => if l._id == i then nl :: ls else l :: replaceLeadById ls i nl

/-- Models `updateLeadById` (src/index.js lines 128–157): same presence and agent
checks as `createLead`, then `findByIdAndUpdate(..., { new: true })` (which
yields null when the target id matches nothing) populated. -/
def updateLeadById (s : Store) (leadId : Nat) (data : LeadInput) :
    Store × Except String (Option PopulatedLead) :=
  if !data.allPresent then
    (s, Except.error "All fields are required")
  else
    match s.agentById data.salesAgent with
    | none => (s, Except.error "Sales agent not found")
    | some _ =>
      match s.leadById leadId with
      | none => (s, Except.ok none)
      | some old =>
        let nl : Lead :=
          { _id := old._id, name := data.name, source := data.source,
            salesAgent := data.salesAgent, status := data.status,
            timeToClose := data.timeToClose, priority := data.priority,
            tags := data.tags }
        let s2 : Store := { s with leads := replaceLeadById s.leads leadId nl }
        (s2, Except.ok (some (s2.populateLead nl)))

/-- The route handler `app.post("/leads/:id")` (src/index.js lines 159–170),
reduced to the HTTP status it answers: 200 when the update returned a lead,
404 when it returned null, 400 when it threw. -/
def updateLeadRoute (s : Store) (leadId : Nat) (data : LeadInput) : Store × Nat :=
  match updateLeadById s leadId data with
  | (s2, Except.ok (some _)) => (s2, 200)
  | (s2, Except.ok none) => (s2, 404)
  | (s2, Except.error _) => (s2, 400)

/-- The destructured request body of `createSalesAgent`. -/
structure AgentInput where
  name : JsVal
  email : JsVal
deriving DecidableEq, Repr

/-- Models `createSalesAgent` (src/index.js lines 200–217): presence check on name
and email, duplicate-email pre-check via `findOne({ email })`, then save.
Returns the saved agent unpopulated. -/
def createSalesAgent (s : Store) (data : AgentInput) : Store × Except String Agent :=
  if !(data.name.truthy && data.email.truthy) then
    (s, Except.error "Name and email are required")
  else
    match s.agentByEmail data.email with
    | some _ => (s, Except.error "Sales agent with this email already exists")
    | none =>
      let agent : Agent := { _id := s.nextId, name := data.name, email := data.email }
      ({ s with agents := s.agents ++ [agent], nextId := s.nextId + 1 }, Except.ok agent)

/-- The destructured request body of `createComment`. -/
structure CommentInput where
  commentText : JsVal
  author : JsVal
deriving DecidableEq, Repr

/-- Models `createComment` (src/index.js lines 256–277): presence check on
commentText and author, then `Lead.findById(leadId)`, then
`SalesAgent.findById(author)`, then save. -/
def createComment (s : Store) (leadId : Nat) (data : CommentInput) :
    Store × Except String Comment :=
  if !(data.commentText.truthy && data.author.truthy) then
    (s, Except.error "Comment text and author are required")
  else
    match s.leadById leadId with
    | none => (s, Except.error "Lead not found")
    | some _ =>
      match s.agentById data.author with
      | none => (s, Except.error "Author not found")
      | some _ =>
        let c : Comment :=
          { _id := s.nextId, lead := leadId, commentText := data.commentText,
            author := data.author }
        ({ s with comments := s.comments ++ [c], nextId := s.nextId + 1 }, Except.ok c)

/-- A field of a Lead document usable as a query key. -/
inductive LeadField where
  | name | source | salesAgent | status | timeToClose | priority
deriving DecidableEq, Repr

/-- Read a query field out of a stored lead. -/
def Lead.fieldVal (l : Lead) : LeadField → JsVal
  | LeadField.name => l.name
  | LeadField.source => l.source
  | LeadField.salesAgent => l.salesAgent
  | LeadField.status => l.status
  | LeadField.timeToClose => l.timeToClose
  | LeadField.priority => l.priority

/-- A Mongo query condition on one field: plain equality or `$ne`. -/
inductive Cond where
  | eq : JsVal → Cond
  | ne : JsVal → Cond
deriving DecidableEq, Repr

/-- Whether a field value satisfies a condition. -/
def Cond.holds : Cond → JsVal → Bool
  | Cond.eq w, v => v == w
  | Cond.ne w, v => !(v == w)

/-- A query document is a conjunction of per-field conditions. -/
def leadMatches (q : List (LeadField × Cond)) (l : Lead) : Bool :=
  q.all (fun p => p.2.holds (l.fieldVal p.1))

/-- Models `Lead.find(query)`. -/
def Store.leadFind (s : Store) (q : List (LeadField × Cond)) : List Lead :=
  s.leads.filter (leadMatches q)

/-- Models `Lead.countDocuments(query)`. -/
def Store.leadCount (s : Store) (q : List (LeadField × Cond)) : Nat :=
  (s.leadFind q).length

/-- The optional query parameters of `GET /leads`; an absent parameter is
`undefined`. -/
structure LeadQueryParams where
  salesAgent : JsVal
  status : JsVal
  source : JsVal
deriving DecidableEq, Repr

/-- Models `readAllLeads` (src/index.js lines 71–84): builds `query` by adding each
truthy parameter as an equality condition, then
`Lead.find(query).populate("salesAgent")`. -/
def readAllLeads (s : Store) (qp : LeadQueryParams) : List PopulatedLead :=
  let q : List (LeadField × Cond) := []
  let q := if qp.salesAgent.truthy then q ++ [(LeadField.salesAgent, Cond.eq qp.salesAgent)] else q
  let q := if qp.status.truthy then q ++ [(LeadField.status, Cond.eq qp.status)] else q
  let q := if qp.source.truthy then q ++ [(LeadField.source, Cond.eq qp.source)] else q
  (s.leadFind q).map s.populateLead

/-- Models `readPipelineReport` (src/index.js lines 345–353):
`Lead.countDocuments({ status: { $ne: "Closed" } })`. -/
def readPipelineReport (s : Store) : Nat :=
  s.leadCount [(LeadField.status, Cond.ne (JsVal.str "Closed"))]

/-- One row of the closed-by-agent report after the final `$project`:
the agent name and the closed-lead count. -/
structure AgentReportRow where
  salesAgent : JsVal
  count : Nat
deriving DecidableEq, Repr

/-- The `$group` stage: one entry per distinct key value, counting its
occurrences (`$sum: 1`). -/
def groupCounts (xs : List JsVal) : List (JsVal × Nat) :=
  xs.dedup.map (fun v => (v, (xs.filter (fun x => x == v)).length))

/-- Models `readClosedLeadsByAgent` (src/index.js lines 365–397): the aggregation
pipeline `$match {status: "Closed"}` → `$group` by salesAgent with count →
`$lookup` into the agents collection by id → `$unwind` (dropping groups whose
lookup found nothing) → `$project` the agent name and count. -/
def readClosedLeadsByAgent (s : Store) : List AgentReportRow :=
  let closed := s.leads.filter (fun l => l.status == JsVal.str "Closed")
  let groups := groupCounts (closed.map (fun l => l.salesAgent))
  groups.flatMap (fun g =>
    (s.agents.filter (fun a => g.1 == JsVal.oid a._id)).map
      (fun a => { salesAgent := a.name, count := g.2 }))

/-- The number of Closed leads referencing a given agent (specification-side
count used to state the closed-by-agent report property). -/
def closedCountOf (s : Store) (a : Agent) : Nat :=
  (s.leads.filter (fun l =>
    l.status == JsVal.str "Closed" && l.salesAgent == JsVal.oid a._id)).length

/-! Concrete sample data used by counterexamples and witnesses. -/

/-- A sample agent. -/
def agent7 : Agent := { _id := 7, name := JsVal.str "Asha", email := JsVal.str "asha@x.com" }

/-- A sample lead referencing `agent7`. -/
def lead3 : Lead :=
  { _id := 3, name := JsVal.str "Acme", source := JsVal.str "Website",
    salesAgent := JsVal.oid 7, status := JsVal.str "New", timeToClose := JsVal.num 30,
    priority := JsVal.str "High", tags := JsVal.arr ["b2b"] }

/-- A sample store holding `agent7` and `lead3`. -/
def baseStore : Store := { leads := [lead3], agents := [agent7], comments := [], nextId := 10 }

/-- A fully-populated, valid lead request body referencing `agent7`. -/
def goodLeadInput : LeadInput :=
  { name := JsVal.str "Globex", source := JsVal.str "Referral",
    salesAgent := JsVal.oid 7, status := JsVal.str "New", timeToClose := JsVal.num 45,
    priority := JsVal.str "Medium", tags := JsVal.arr ["new"] }

/-! Helper lemmas. -/

/-- In a list of leads whose ids are all below `n`, no lead has id `n`. -/
theorem find?_id_eq_none_of_all_lt {ls : List Lead} {n : Nat}
    (h : ls.all (fun l => l._id < n) = true) :
    ls.find? (fun l => l._id == n) = none := by
  induction ls with
  | nil => rfl
  | cons l ls ih =>
    rw [List.all_cons, Bool.and_eq_true] at h
    have hne : (l._id == n) = false := by
      simp only [beq_eq_false_iff_ne, ne_eq]
      exact Nat.ne_of_lt (by simpa using h.1)
    rw [List.find?_cons_of_neg _ (by simp [hne]), ih h.2]

/-- The leads component of a well-formed store has only ids below `nextId`. -/
theorem wf_leads {s : Store} (h : s.wf = true) :
    s.leads.all (fun l => l._id < s.nextId) = true := by
  unfold Store.wf at h
  rw [Bool.and_eq_true] at h
  rw [Bool.and_eq_true] at h
  exact h.1.1

/-- The agents component of a well-formed store has only ids below `nextId`. -/
theorem wf_agents {s : Store} (h : s.wf = true) :
    s.agents.all (fun a => a._id < s.nextId) = true := by
  unfold Store.wf at h
  rw [Bool.and_eq_true] at h
  rw [Bool.and_eq_true] at h
  exact h.1.2

/-- C10: a lead body whose `timeToClose` is the integer 0 is rejected by both
`createLead` and `updateLeadById` with the ValidationError "All fields are
required", because the presence check tests JavaScript truthiness and 0 is
falsy; the store is left unchanged. -/
theorem timeToClose_zero_rejected (s : Store) (leadId : Nat) (d : LeadInput)
    (h : d.timeToClose = JsVal.num 0) :
    (createLead s d).2 = Except.error "All fields are required" ∧
    (createLead s d).1 = s ∧
    (updateLeadById s leadId d).2 = Except.error "All fields are required" ∧
    (updateLeadById s leadId d).1 = s := by
  have hp : d.allPresent = false := by
    unfold LeadInput.allPresent
    rw [h]
    simp [JsVal.truthy]
  unfold createLead updateLeadById
  rw [hp]
  simp

/-- Witness for C10 at `timeToClose = 0`. -/
theorem timeToClose_zero_rejected_witness :
    ({ goodLeadInput with timeToClose := JsVal.num 0 } : LeadInput).timeToClose = JsVal.num 0 ∧
    ((createLead baseStore { goodLeadInput with timeToClose := JsVal.num 0 }).2 =
        Except.error "All fields are required" ∧
      (createLead baseStore { goodLeadInput with timeToClose := JsVal.num 0 }).1 = baseStore ∧
      (updateLeadById baseStore 3 { goodLeadInput with timeToClose := JsVal.num 0 }).2 =
        Except.error "All fields are required" ∧
      (updateLeadById baseStore 3 { goodLeadInput with timeToClose := JsVal.num 0 }).1 = baseStore) :=
  ⟨rfl, timeToClose_zero_rejected baseStore 3 { goodLeadInput with timeToClose := JsVal.num 0 } rfl⟩

/-- C2: on a well-formed store, a lead body in which all seven fields are
present (truthy) and `salesAgent` resolves to an existing agent makes
`createLead` succeed: the new lead is appended to the Lead collection and the
returned populated lead carries the full referenced agent record in its
`salesAgent` field. -/
theorem createLead_success (s : Store) (d : LeadInput) (a : Agent)
    (hwf : s.wf = true) (hp : d.allPresent = true)
    (ha : s.agentById d.salesAgent = some a) :
    (createLead s d).1.leads = s.leads ++
      [{ _id := s.nextId, name := d.name, source := d.source,
         salesAgent := d.salesAgent, status := d.status,
         timeToClose := d.timeToClose, priority := d.priority, tags := d.tags }] ∧
    (createLead s d).2 = Except.ok (some
      { _id := s.nextId, name := d.name, source := d.source, salesAgent := some a,
        status := d.status, timeToClose := d.timeToClose, priority := d.priority,
        tags := d.tags }) := by
  have hnone : s.leads.find? (fun l => l._id == s.nextId) = none :=
    find?_id_eq_none_of_all_lt (wf_leads hwf)
  unfold createLead
  rw [hp]
  simp only [Bool.not_true, Bool.false_eq_true, if_false, ha]
  refine ⟨trivial, ?_⟩
  simp only [Store.leadById, List.find?_append, hnone, Option.none_orElse]
  simp [Store.populateLead, Store.agentById] at ha ⊢
  exact ha

/-- Witness for C2 on the sample store. -/
theorem createLead_success_witness :
    baseStore.wf = true ∧ goodLeadInput.allPresent = true ∧
    baseStore.agentById goodLeadInput.salesAgent = some agent7 ∧
    ((createLead baseStore goodLeadInput).1.leads = baseStore.leads ++
      [{ _id := baseStore.nextId, name := goodLeadInput.name, source := goodLeadInput.source,
         salesAgent := goodLeadInput.salesAgent, status := goodLeadInput.status,
         timeToClose := goodLeadInput.timeToClose, priority := goodLeadInput.priority,
         tags := goodLeadInput.tags }] ∧
    (createLead baseStore goodLeadInput).2 = Except.ok (some
      { _id := baseStore.nextId, name := goodLeadInput.name, source := goodLeadInput.source,
        salesAgent := some agent7, status := goodLeadInput.status,
        timeToClose := goodLeadInput.timeToClose, priority := goodLeadInput.priority,
        tags := goodLeadInput.tags })) :=
  ⟨by decide, by decide, by decide,
    createLead_success baseStore goodLeadInput agent7 (by decide) (by decide) (by decide)⟩

/-- Counterexample to C1 as stated: an input whose `salesAgent` is truthy and
resolves to no agent, but whose `name` is missing, fails with the
ValidationError, not with "Sales agent not found". -/
theorem createLead_badAgent_counterexample :
    ({ goodLeadInput with name := JsVal.undefined, salesAgent := JsVal.oid 99 } : LeadInput).salesAgent.truthy = true ∧
    baseStore.agentById (JsVal.oid 99) = none ∧
    (createLead baseStore { goodLeadInput with name := JsVal.undefined, salesAgent := JsVal.oid 99 }).2 ≠
      Except.error "Sales agent not found" ∧
    (createLead baseStore { goodLeadInput with name := JsVal.undefined, salesAgent := JsVal.oid 99 }).2 =
      Except.error "All fields are required" := by decide

/-- C1 (amended): when `salesAgent` is truthy but resolves to no agent,
`createLead` always fails and leaves the store (hence the Lead collection)
unchanged; the error is "Sales agent not found" exactly when the other
required fields pass the presence check, and the presence-check
ValidationError otherwise. -/
theorem createLead_badAgent (s : Store) (d : LeadInput)
    (hA : d.salesAgent.truthy = true)
    (hnone : s.agentById d.salesAgent = none) :
    ((createLead s d).2 = Except.error "All fields are required" ∨
      (createLead s d).2 = Except.error "Sales agent not found") ∧
    (d.allPresent = true → (createLead s d).2 = Except.error "Sales agent not found") ∧
    (createLead s d).1 = s := by
  unfold createLead
  cases hp : d.allPresent with
  | false => simp [hp]
  | true => simp [hp, hnone]

/-- Witness for C1 (amended): a fully-present body referencing agent 99,
which does not exist in the sample store. -/
theorem createLead_badAgent_witness :
    ({ goodLeadInput with salesAgent := JsVal.oid 99 } : LeadInput).salesAgent.truthy = true ∧
    baseStore.agentById ({ goodLeadInput with salesAgent := JsVal.oid 99 } : LeadInput).salesAgent = none ∧
    (((createLead baseStore { goodLeadInput with salesAgent := JsVal.oid 99 }).2 =
        Except.error "All fields are required" ∨
      (createLead baseStore { goodLeadInput with salesAgent := JsVal.oid 99 }).2 =
        Except.error "Sales agent not found") ∧
    (({ goodLeadInput with salesAgent := JsVal.oid 99 } : LeadInput).allPresent = true →
      (createLead baseStore { goodLeadInput with salesAgent := JsVal.oid 99 }).2 =
        Except.error "Sales agent not found") ∧
    (createLead baseStore { goodLeadInput with salesAgent := JsVal.oid 99 }).1 = baseStore) :=
  ⟨by decide, by decide,
    createLead_badAgent baseStore { goodLeadInput with salesAgent := JsVal.oid 99 }
      (by decide) (by decide)⟩

/-- Counterexample to C3 as stated: an update body whose `tags` field is the
empty array passes the presence check (a JavaScript array is truthy even when
empty), so the update succeeds and rewrites the targeted lead instead of
failing with the ValidationError. -/
theorem updateLead_emptyTags_counterexample :
    ({ goodLeadInput with tags := JsVal.arr [] } : LeadInput).tags = JsVal.arr [] ∧
    (updateLeadById baseStore 3 { goodLeadInput with tags := JsVal.arr [] }).2 ≠
      Except.error "All fields are required" ∧
    (updateLeadById baseStore 3 { goodLeadInput with tags := JsVal.arr [] }).2.isOk = true ∧
    (updateLeadById baseStore 3 { goodLeadInput with tags := JsVal.arr [] }).1.leads ≠
      baseStore.leads := by decide

/-- C3 (amended): an update body in which any of the seven fields is falsy —
missing, null, an empty string, or the number 0 — fails with the
ValidationError "All fields are required" and leaves the store (hence the
targeted lead) unchanged; an empty `tags` array, however, is truthy and is
not rejected. -/
theorem updateLead_missingField (s : Store) (leadId : Nat) (d : LeadInput)
    (h : d.allPresent = false) :
    (updateLeadById s leadId d).2 = Except.error "All fields are required" ∧
    (updateLeadById s leadId d).1 = s := by
  unfold updateLeadById
  rw [h]
  simp

/-- Witness for C3 (amended): an update body missing its `name`. -/
theorem updateLead_missingField_witness :
    ({ goodLeadInput with name := JsVal.undefined } : LeadInput).allPresent = false ∧
    ((updateLeadById baseStore 3 { goodLeadInput with name := JsVal.undefined }).2 =
      Except.error "All fields are required" ∧
    (updateLeadById baseStore 3 { goodLeadInput with name := JsVal.undefined }).1 = baseStore) :=
  ⟨by decide, updateLead_missingField baseStore 3 { goodLeadInput with name := JsVal.undefined } (by decide)⟩

/-- Counterexample to C9 as stated: updating a non-existent lead id with a
valid body is surfaced distinctly from the success path — the route answers
404 where a successful update answers 200 and a validation failure 400. -/
theorem updateLeadRoute_missingTarget_counterexample :
    baseStore.leadById 99 = none ∧
    (updateLeadRoute baseStore 99 goodLeadInput).2 = 404 ∧
    (updateLeadRoute baseStore 3 goodLeadInput).2 = 200 ∧
    (updateLeadRoute baseStore 3 { goodLeadInput with name := JsVal.undefined }).2 = 400 ∧
    (404 : Nat) ≠ 200 := by decide

/-- C9 (amended): when the target lead id does not exist but the body passes
the presence and sales-agent checks, `updateLeadById` raises no error and
returns null (`Except.ok none`) with the store unchanged, and the route layer
surfaces this null as a 404 response — distinct from the 200 success path and
from the 400 validation path. -/
theorem updateLead_missingTarget (s : Store) (leadId : Nat) (d : LeadInput) (a : Agent)
    (hp : d.allPresent = true) (ha : s.agentById d.salesAgent = some a)
    (hmiss : s.leadById leadId = none) :
    updateLeadById s leadId d = (s, Except.ok none) ∧
    updateLeadRoute s leadId d = (s, 404) := by
  have h1 : updateLeadById s leadId d = (s, Except.ok none) := by
    unfold updateLeadById
    rw [hp]
    simp [ha, hmiss]
  refine ⟨h1, ?_⟩
  unfold updateLeadRoute
  rw [h1]

/-- Witness for C9 (amended) at the absent lead id 99. -/
theorem updateLead_missingTarget_witness :
    goodLeadInput.allPresent = true ∧
    baseStore.agentById goodLeadInput.salesAgent = some agent7 ∧
    baseStore.leadById 99 = none ∧
    (updateLeadById baseStore 99 goodLeadInput = (baseStore, Except.ok none) ∧
      updateLeadRoute baseStore 99 goodLeadInput = (baseStore, 404)) :=
  ⟨by decide, by decide, by decide,
    updateLead_missingTarget baseStore 99 goodLeadInput agent7 (by decide) (by decide) (by decide)⟩

/-- C8: for each of the four write operations, an input that both fails the
required-field presence check and carries a dangling reference (or, for
agents, a duplicate email) is rejected with the presence-check
ValidationError: the required-field check runs before the referential and
uniqueness checks. -/
theorem requiredFieldCheck_runs_first (s : Store)
    (d1 : LeadInput) (lid2 : Nat) (d2 : LeadInput)
    (d3 : AgentInput) (lid4 : Nat) (d4 : CommentInput)
    (h1p : d1.allPresent = false) (h1a : s.agentById d1.salesAgent = none)
    (h2p : d2.allPresent = false) (h2a : s.agentById d2.salesAgent = none)
    (h3p : (d3.name.truthy && d3.email.truthy) = false)
    (h3e : s.agentByEmail d3.email ≠ none)
    (h4p : (d4.commentText.truthy && d4.author.truthy) = false)
    (h4l : s.leadById lid4 = none) :
    (createLead s d1).2 = Except.error "All fields are required" ∧
    (updateLeadById s lid2 d2).2 = Except.error "All fields are required" ∧
    (createSalesAgent s d3).2 = Except.error "Name and email are required" ∧
    (createComment s lid4 d4).2 = Except.error "Comment text and author are required" := by
  refine ⟨?_, ?_, ?_, ?_⟩
  · unfold createLead
    rw [h1p]
    simp
  · unfold updateLeadById
    rw [h2p]
    simp
  · unfold createSalesAgent
    rw [h3p]
    simp
  · unfold createComment
    rw [h4p]
    simp

/-- Witness for C8: a store with one agent; a lead body missing its name and
referencing an absent agent, an agent body missing its name but reusing the
stored agent email, and a comment body missing its text on an absent lead. -/
theorem requiredFieldCheck_runs_first_witness :
    ({ goodLeadInput with name := JsVal.undefined, salesAgent := JsVal.oid 99 } : LeadInput).allPresent = false ∧
    baseStore.agentById (JsVal.oid 99) = none ∧
    (({ name := JsVal.undefined, email := JsVal.str "asha@x.com" } : AgentInput).name.truthy &&
      ({ name := JsVal.undefined, email := JsVal.str "asha@x.com" } : AgentInput).email.truthy) = false ∧
    baseStore.agentByEmail (JsVal.str "asha@x.com") ≠ none ∧
    (({ commentText := JsVal.undefined, author := JsVal.oid 7 } : CommentInput).commentText.truthy &&
      ({ commentText := JsVal.undefined, author := JsVal.oid 7 } : CommentInput).author.truthy) = false ∧
    baseStore.leadById 99 = none ∧
    ((createLead baseStore { goodLeadInput with name := JsVal.undefined, salesAgent := JsVal.oid 99 }).2 =
        Except.error "All fields are required" ∧
      (updateLeadById baseStore 99 { goodLeadInput with name := JsVal.undefined, salesAgent := JsVal.oid 99 }).2 =
        Except.error "All fields are required" ∧
      (createSalesAgent baseStore { name := JsVal.undefined, email := JsVal.str "asha@x.com" }).2 =
        Except.error "Name and email are required" ∧
      (createComment baseStore 99 { commentText := JsVal.undefined, author := JsVal.oid 7 }).2 =
        Except.error "Comment text and author are required") :=
  ⟨by decide, by decide, by decide, by decide, by decide, by decide,
    requiredFieldCheck_runs_first baseStore
      { goodLeadInput with name := JsVal.undefined, salesAgent := JsVal.oid 99 }
      99 { goodLeadInput with name := JsVal.undefined, salesAgent := JsVal.oid 99 }
      { name := JsVal.undefined, email := JsVal.str "asha@x.com" }
      99 { commentText := JsVal.undefined, author := JsVal.oid 7 }
      (by decide) (by decide) (by decide) (by decide) (by decide) (by decide) (by decide) (by decide)⟩

/-- The empty store. -/
def emptyStore : Store := { leads := [], agents := [], comments := [], nextId := 0 }

/-- A valid create-agent body. -/
def agentInputA : AgentInput := { name := JsVal.str "A", email := JsVal.str "a@x.com" }

/-- Counterexample to C4 as stated: a second create-agent input that reuses
the email of the first input but omits the name fails with the presence-check
ValidationError, not with the duplicate-email ConflictError. -/
theorem createSalesAgent_dup_counterexample :
    (createSalesAgent emptyStore agentInputA).2.isOk = true ∧
    ({ name := JsVal.undefined, email := JsVal.str "a@x.com" } : AgentInput).email = agentInputA.email ∧
    (createSalesAgent (createSalesAgent emptyStore agentInputA).1
        { name := JsVal.undefined, email := JsVal.str "a@x.com" }).2 ≠
      Except.error "Sales agent with this email already exists" ∧
    (createSalesAgent (createSalesAgent emptyStore agentInputA).1
        { name := JsVal.undefined, email := JsVal.str "a@x.com" }).2 =
      Except.error "Name and email are required" := by decide

/-- In a list of agents whose ids are all below `n`, no agent is referenced
by the ObjectId `n`. -/
theorem find?_agent_oid_eq_none_of_all_lt {as : List Agent} {n : Nat}
    (h : as.all (fun a => a._id < n) = true) :
    as.find? (fun a => JsVal.oid n == JsVal.oid a._id) = none := by
  induction as with
  | nil => rfl
  | cons a as ih =>
    rw [List.all_cons, Bool.and_eq_true] at h
    have hlt : a._id ≠ n := Nat.ne_of_lt (by simpa using h.1)
    have hne : (JsVal.oid n == JsVal.oid a._id) = false := by
      simp only [beq_eq_false_iff_ne, ne_eq, JsVal.oid.injEq]
      exact Ne.symm hlt
    rw [List.find?_cons_of_neg _ (by simp [hne]), ih h.2]

/-- C4 (amended): on a well-formed store, if a create-agent call succeeds and
a second create-agent input carries the same email and a present (truthy)
name, the second call fails with the ConflictError "Sales agent with this
email already exists", leaves the store unchanged, and the first agent
remains present and queryable by its id.  (A second input with a falsy name
still fails, but with the presence-check ValidationError.) -/
theorem createSalesAgent_dupEmail (s : Store) (d1 d2 : AgentInput) (a1 : Agent)
    (hwf : s.wf = true)
    (h1 : (createSalesAgent s d1).2 = Except.ok a1)
    (hname : d2.name.truthy = true)
    (hemail : d2.email = d1.email) :
    (createSalesAgent (createSalesAgent s d1).1 d2).2 =
      Except.error "Sales agent with this email already exists" ∧
    (createSalesAgent (createSalesAgent s d1).1 d2).1 = (createSalesAgent s d1).1 ∧
    a1 ∈ (createSalesAgent s d1).1.agents ∧
    ((createSalesAgent s d1).1).agentById (JsVal.oid a1._id) = some a1 := by
  cases hp1 : (d1.name.truthy && d1.email.truthy) with
  | false =>
    unfold createSalesAgent at h1
    rw [hp1] at h1
    simp at h1
  | true =>
    cases hfe : s.agentByEmail d1.email with
    | some a =>
      unfold createSalesAgent at h1
      rw [hp1] at h1
      simp [hfe] at h1
    | none =>
      have hs1 : (createSalesAgent s d1).1 =
          { s with
            agents := s.agents ++ [{ _id := s.nextId, name := d1.name, email := d1.email }],
            nextId := s.nextId + 1 } := by
        unfold createSalesAgent
        rw [hp1]
        simp [hfe]
      have ha1 : a1 = { _id := s.nextId, name := d1.name, email := d1.email } := by
        unfold createSalesAgent at h1
        rw [hp1] at h1
        simp [hfe] at h1
        exact h1.symm
      have hp1a := hp1
      rw [Bool.and_eq_true] at hp1a
      have he1 : d1.email.truthy = true := hp1a.2
      have hp2 : (d2.name.truthy && d2.email.truthy) = true := by
        rw [hname, hemail, he1]
        rfl
      have hfe0 : s.agents.find? (fun a => a.email == d1.email) = none := hfe
      rw [hs1, ha1]
      refine ⟨?_, ?_, ?_, ?_⟩
      · unfold createSalesAgent
        rw [hp2]
        simp only [Bool.not_true, Bool.false_eq_true, if_false]
        unfold Store.agentByEmail
        simp only [List.find?_append, hemail, hfe0, Option.none_orElse]
        rw [List.find?_cons_of_pos _ (by simp)]
        simp
      · unfold createSalesAgent
        rw [hp2]
        simp only [Bool.not_true, Bool.false_eq_true, if_false]
        unfold Store.agentByEmail
        simp only [List.find?_append, hemail, hfe0, Option.none_orElse]
        rw [List.find?_cons_of_pos _ (by simp)]
        simp
      · simp
      · unfold Store.agentById
        simp only [List.find?_append, find?_agent_oid_eq_none_of_all_lt (wf_agents hwf),
          Option.none_orElse]
        rw [List.find?_cons_of_pos _ (by simp)]
        simp

/-- Witness for C4 (amended): agent "A" is created first; agent "B" reuses
the same email. -/
theorem createSalesAgent_dupEmail_witness :
    emptyStore.wf = true ∧
    (createSalesAgent emptyStore agentInputA).2 =
      Except.ok { _id := 0, name := JsVal.str "A", email := JsVal.str "a@x.com" } ∧
    ({ name := JsVal.str "B", email := JsVal.str "a@x.com" } : AgentInput).name.truthy = true ∧
    ({ name := JsVal.str "B", email := JsVal.str "a@x.com" } : AgentInput).email = agentInputA.email ∧
    ((createSalesAgent (createSalesAgent emptyStore agentInputA).1
        { name := JsVal.str "B", email := JsVal.str "a@x.com" }).2 =
      Except.error "Sales agent with this email already exists" ∧
    (createSalesAgent (createSalesAgent emptyStore agentInputA).1
        { name := JsVal.str "B", email := JsVal.str "a@x.com" }).1 =
      (createSalesAgent emptyStore agentInputA).1 ∧
    ({ _id := 0, name := JsVal.str "A", email := JsVal.str "a@x.com" } : Agent) ∈
      (createSalesAgent emptyStore agentInputA).1.agents ∧
    ((createSalesAgent emptyStore agentInputA).1).agentById (JsVal.oid 0) =
      some { _id := 0, name := JsVal.str "A", email := JsVal.str "a@x.com" }) :=
  ⟨by decide, by decide, by decide, by decide,
    createSalesAgent_dupEmail emptyStore agentInputA
      { name := JsVal.str "B", email := JsVal.str "a@x.com" }
      { _id := 0, name := JsVal.str "A", email := JsVal.str "a@x.com" }
      (by decide) (by decide) (by decide) (by decide)⟩

/-- C5: `readAllLeads` returns exactly the (populated) leads satisfying the
conjunction of equality predicates over the supplied (truthy) filter
parameters; in particular, with no parameters supplied it returns every
stored lead, and with `status=Closed` exactly the leads whose status is
"Closed". -/
theorem readAllLeads_filters (s : Store) (qp : LeadQueryParams) :
    readAllLeads s qp = (s.leads.filter (fun l =>
        (!qp.salesAgent.truthy || l.salesAgent == qp.salesAgent) &&
        ((!qp.status.truthy || l.status == qp.status) &&
         (!qp.source.truthy || l.source == qp.source)))).map s.populateLead ∧
    readAllLeads s
        { salesAgent := JsVal.undefined, status := JsVal.undefined, source := JsVal.undefined } =
      s.leads.map s.populateLead ∧
    readAllLeads s
        { salesAgent := JsVal.undefined, status := JsVal.str "Closed", source := JsVal.undefined } =
      (s.leads.filter (fun l => l.status == JsVal.str "Closed")).map s.populateLead := by
  refine ⟨?_, ?_, ?_⟩
  · unfold readAllLeads Store.leadFind
    apply congrArg (List.map s.populateLead)
    cases hsa : qp.salesAgent.truthy <;> cases hst : qp.status.truthy <;>
      cases hsrc : qp.source.truthy <;>
      · apply List.filter_congr
        intro l _
        simp [leadMatches, Cond.holds, Lead.fieldVal, hsa, hst, hsrc]
  · unfold readAllLeads Store.leadFind
    have hall : leadMatches [] = fun _ => true := by
      funext l
      rfl
    simp [JsVal.truthy, hall]
  · unfold readAllLeads Store.leadFind
    apply congrArg (List.map s.populateLead)
    apply List.filter_congr
    intro l _
    simp only [JsVal.truthy, leadMatches, Cond.holds, Lead.fieldVal, List.all_cons,
      List.all_nil, Bool.and_true]
    by_cases h : l.status = JsVal.str "Closed"
    · simp [h]
    · simp [h]

/-- C6: the pipeline report is the number of stored leads whose status is not
"Closed", and repeated calls on the same store state (no intervening writes)
return the same count. -/
theorem pipelineReport_counts (s : Store) :
    readPipelineReport s =
      (s.leads.filter (fun l => l.status ≠ JsVal.str "Closed")).length ∧
    readPipelineReport s = readPipelineReport s := by
  refine ⟨?_, rfl⟩
  unfold readPipelineReport Store.leadCount Store.leadFind
  apply congrArg List.length
  apply List.filter_congr
  intro l _
  simp only [leadMatches, Cond.holds, Lead.fieldVal, List.all_cons, List.all_nil, Bool.and_true]
  by_cases h : l.status = JsVal.str "Closed"
  · simp [h]
  · simp [h]

/-- Splitting a filter along two mutually exclusive predicates, up to
permutation. -/
theorem filter_or_perm {α : Type} (l : List α) (p q : α → Bool)
    (hdisj : ∀ a, p a = true → q a = false) :
    List.Perm (l.filter (fun a => p a || q a)) (l.filter p ++ l.filter q) := by
  induction l with
  | nil => simp
  | cons a l ih =>
    by_cases hp : p a = true
    · have hq : q a = false := hdisj a hp
      simp only [List.filter_cons, hp, hq, Bool.true_or, if_true]
      exact ih.cons a
    · have hp0 : p a = false := by simpa using hp
      by_cases hq : q a = true
      · simp only [List.filter_cons, hp0, hq, Bool.false_or, if_true, if_false]
        exact (ih.cons a).trans List.perm_middle.symm
      · have hq0 : q a = false := by simpa using hq
        simp only [List.filter_cons, hp0, hq0, Bool.false_or, if_false]
        exact ih

/-- The `$lookup`/`$unwind`/`$project` tail of the aggregation, applied to
one group per distinct key, is a permutation of one output row per agent
whose id occurs among the keys. -/
theorem flatMap_groups_perm (ags : List Agent) (cnt : JsVal → Nat) :
    ∀ ks : List JsVal, ks.Nodup →
    List.Perm
      (ks.flatMap (fun v => (ags.filter (fun a => v == JsVal.oid a._id)).map
        (fun a => ({ salesAgent := a.name, count := cnt v } : AgentReportRow))))
      ((ags.filter (fun a => decide (JsVal.oid a._id ∈ ks))).map
        (fun a => ({ salesAgent := a.name, count := cnt (JsVal.oid a._id) } : AgentReportRow)))
  | [], _ => by simp
  | v :: ks, hnd => by
    rw [List.nodup_cons] at hnd
    have ih := flatMap_groups_perm ags cnt ks hnd.2
    rw [List.flatMap_cons]
    have hpred : (ags.filter (fun a => decide (JsVal.oid a._id ∈ v :: ks))) =
        (ags.filter (fun a => (v == JsVal.oid a._id) || decide (JsVal.oid a._id ∈ ks))) := by
      apply List.filter_congr
      intro a _
      simp only [List.mem_cons, Bool.decide_or]
      have : (JsVal.oid a._id == v) = (v == JsVal.oid a._id) := by
        by_cases h : JsVal.oid a._id = v
        · rw [h]
        · rw [beq_eq_false_iff_ne.mpr h, (beq_eq_false_iff_ne (a := v)).mpr (Ne.symm h)]
      rw [← this]
      rfl
    have hsplit := filter_or_perm ags (fun a => (v == JsVal.oid a._id))
      (fun a => decide (JsVal.oid a._id ∈ ks))
      (by
        intro a hp
        have hv : v = JsVal.oid a._id := by simpa using hp
        simp only [decide_eq_false_iff_not]
        rw [← hv]
        exact hnd.1)
    have hfirst : (ags.filter (fun a => (v == JsVal.oid a._id))).map
        (fun a => ({ salesAgent := a.name, count := cnt (JsVal.oid a._id) } : AgentReportRow)) =
        (ags.filter (fun a => (v == JsVal.oid a._id))).map
        (fun a => ({ salesAgent := a.name, count := cnt v } : AgentReportRow)) := by
      apply List.map_congr_left
      intro a ha
      have hv : v = JsVal.oid a._id := by simpa using (List.mem_filter.mp ha).2
      rw [← hv]
    rw [hpred]
    refine List.Perm.trans (List.Perm.append_left _ ih) ?_
    rw [← hfirst, ← List.map_append]
    exact (hsplit.map _).symm

/-- C7: the closed-by-agent report is, up to order, exactly one row per
stored agent having at least one Closed lead, carrying the name of that agent and
their Closed-lead count; agents with zero Closed leads contribute no row. -/
theorem closedByAgent_report (s : Store) :
    List.Perm (readClosedLeadsByAgent s)
      ((s.agents.filter (fun a => decide (1 ≤ closedCountOf s a))).map
        (fun a => ({ salesAgent := a.name, count := closedCountOf s a } : AgentReportRow))) := by
  have hcnt : ∀ a : Agent,
      (((s.leads.filter (fun l => l.status == JsVal.str "Closed")).map
        (fun l => l.salesAgent)).filter (fun x => x == JsVal.oid a._id)).length =
      closedCountOf s a := by
    intro a
    rw [List.filter_map, List.length_map]
    unfold closedCountOf
    rw [List.filter_filter]
    apply congrArg List.length
    apply List.filter_congr
    intro l _
    exact Bool.and_comm _ _
  have hmem : ∀ a : Agent,
      (JsVal.oid a._id ∈ ((s.leads.filter (fun l => l.status == JsVal.str "Closed")).map
        (fun l => l.salesAgent)).dedup) ↔ 1 ≤ closedCountOf s a := by
    intro a
    rw [List.mem_dedup, ← hcnt a]
    constructor
    · intro h
      exact List.length_pos_of_mem (List.mem_filter.mpr ⟨h, by simp⟩)
    · intro h
      obtain ⟨x, hx⟩ := List.exists_mem_of_length_pos h
      have hx2 := List.mem_filter.mp hx
      have hxe : x = JsVal.oid a._id := by simpa using hx2.2
      exact hxe ▸ hx2.1
  unfold readClosedLeadsByAgent groupCounts
  rw [List.flatMap_map]
  refine List.Perm.trans
    (flatMap_groups_perm s.agents
      (fun v => (((s.leads.filter (fun l => l.status == JsVal.str "Closed")).map
        (fun l => l.salesAgent)).filter (fun x => x == v)).length)
      (((s.leads.filter (fun l => l.status == JsVal.str "Closed")).map
        (fun l => l.salesAgent)).dedup)
      (List.nodup_dedup _)) ?_
  have hfilter : s.agents.filter (fun a =>
      decide (JsVal.oid a._id ∈ ((s.leads.filter (fun l => l.status == JsVal.str "Closed")).map
        (fun l => l.salesAgent)).dedup)) =
      s.agents.filter (fun a => decide (1 ≤ closedCountOf s a)) := by
    apply List.filter_congr
    intro a _
    exact decide_eq_decide.mpr (hmem a)
  rw [hfilter]
  have hmap : (s.agents.filter (fun a => decide (1 ≤ closedCountOf s a))).map
      (fun a =>
        ({ salesAgent := a.name,
           count := (((s.leads.filter (fun l => l.status == JsVal.str "Closed")).map
             (fun l => l.salesAgent)).filter (fun x => x == JsVal.oid a._id)).length } : AgentReportRow)) =
      (s.agents.filter (fun a => decide (1 ≤ closedCountOf s a))).map
      (fun a => ({ salesAgent := a.name, count := closedCountOf s a } : AgentReportRow)) := by
    apply List.map_congr_left
    intro a _
    rw [hcnt a]
  rw [hmap]
